import Mathlib

/-!
Verification development for the scalar conversion kernel of `pdtypes`
(`src/pdtypes/apply.py` and `src/pdtypes/parse.py`).

Modelling conventions:
* Python scalars are embedded as the inductive `PyVal`: machine floats are
  modelled as exact rationals (every literal appearing in the claims is an
  exact decimal), complex numbers as pairs of rationals, datetimes and
  timedeltas as rational epoch-seconds / total-seconds.
* The missing-value sentinels `None`, `np.nan`, `pd.NA`, `pd.NaT` are the
  four null constructors; `pdIsNull` mirrors `pd.isnull`.
* Fallible code returns `Res` (ok / error); `PyError` distinguishes the
  exception classes relevant to the control flow of `apply.py`
  (`ValueError`, `KeyError`, and the uncaught `TypeError`/`AttributeError`).
* `apply.py` is a mid-rename snapshot: its conversion maps refer to
  e.g. `_float_to_integer` while the file defines `float_to_integer`; the
  underscore references are read as the like-named functions defined in the
  same file.  Where a reference has no consistent resolution (a stale
  keyword argument, or an eagerly evaluated broken expression) the literal
  Python failure is kept; see the comments on the affected map cells.
* `parse_dtype`, `parse_string` and `to_utc` are imported by `apply.py`
  from `pdtypes/util/parse.py`, which is not under `src/`;
  `src/pdtypes/parse.py` contains the in-repo twin of the first two and is
  the basis of their embedding here.
-/

namespace Pdtypes

/-- Default absolute tolerance `ftol = 1e-6` used throughout `apply.py`. -/
def defaultFtol : ℚ := 1 / 1000000

/-- Embedded Python scalar values.  Floats are exact rationals; a datetime
is its seconds-since-epoch in the canonical UTC zone; a timedelta is its
total seconds.  `vObj` is an element whose storage dtype classifies as the
catch-all `object` kind; it is modelled as wrapping a numeric value because
the object branches of the entry points apply the numeric constructors
`int`/`float`/`complex`/`bool`/`str` to it. -/
inductive PyVal where
  | vInt (n : ℤ)
  | vFloat (x : ℚ)
  | vComplex (re im : ℚ)
  | vBool (b : Bool)
  | vStr (s : String)
  | vDatetime (ts : ℚ)
  | vTimedelta (secs : ℚ)
  | vObj (x : ℚ)
  | vNone
  | vNaN
  | vNA
  | vNaT
deriving DecidableEq

/-- Python exception classes relevant to `apply.py`'s control flow.
`valueError` carries the context string and the original element, the two
pieces of information every `err_msg` in `apply.py` interpolates. -/
inductive PyError where
  | valueError (context : String) (original : PyVal)
  | keyError
  | typeError
  | attributeError
deriving DecidableEq

/-- Result of a conversion: a value, or a raised exception. -/
inductive Res where
  | ok (v : PyVal)
  | error (e : PyError)
deriving DecidableEq

/-- Sequencing of conversions (used to state the round-trip law). -/
def Res.andThen (r : Res) (f : PyVal → Res) : Res :=
  match r with
  | .ok v => f v
  | .error e => .error e

/-- Mirrors `pd.isnull` on scalars: true exactly on the missing sentinels. -/
def pdIsNull : PyVal → Bool
  | .vNone => true
  | .vNaN => true
  | .vNA => true
  | .vNaT => true
  | .vInt _ => false
  | .vFloat _ => false
  | .vComplex _ _ => false
  | .vBool _ => false
  | .vStr _ => false
  | .vDatetime _ => false
  | .vTimedelta _ => false
  | .vObj _ => false

/-- The seven semantic kinds plus the catch-all `object` kind, i.e. the
possible results of `parse_dtype`. -/
inductive Kind where
  | int
  | float
  | complex
  | bool
  | str
  | datetime
  | timedelta
  | obj
deriving DecidableEq

/-- Embeds `parse_dtype` (`src/pdtypes/parse.py`, lines 10-30): the storage
dtype of each embedded value classified into a `Kind`.  The null sentinels
are classified by the dtype of their Python type (`type(np.nan)` is float,
`pd.NaT` is a datetime, `None`/`pd.NA` fall to object); these cases are
unreachable from the entry points, which test `pd.isnull` first. -/
def parse_dtype : PyVal → Kind
  | .vInt _ => .int
  | .vFloat _ => .float
  | .vComplex _ _ => .complex
  | .vBool _ => .bool
  | .vStr _ => .str
  | .vDatetime _ => .datetime
  | .vTimedelta _ => .timedelta
  | .vObj _ => .obj
  | .vNaN => .float
  | .vNone => .obj
  | .vNA => .obj
  | .vNaT => .datetime

/-- Floor of a rational, written so that it evaluates by reduction
(`Int.floor`'s instance does not); equal to `Int.floor` by
`ratFloor_eq`. -/
def ratFloor (q : ℚ) : ℤ := q.num / (q.den : ℤ)

/-- Ceiling of a rational, evaluable by reduction; equals `Int.ceil`. -/
def ratCeil (q : ℚ) : ℤ := -(ratFloor (-q))

/-- Truncation toward zero, the behaviour of Python's `int()` on floats. -/
def ratTrunc (x : ℚ) : ℤ :=
  if 0 ≤ x then ratFloor x else ratCeil x

/-- Round half to even, the behaviour of `np.round` at unit precision. -/
def npRound (x : ℚ) : ℤ :=
  let f := ratFloor x
  let frac := x - f
  if frac < 1 / 2 then f
  else if 1 / 2 < frac then f + 1
  else if f % 2 = 0 then f else f + 1

/-- Python `bool()` of a numeric value: true iff nonzero. -/
def pyBool (q : ℚ) : Bool := decide (q ≠ 0)

/-- Python `bool()` of an integer: true iff nonzero. -/
def pyBoolInt (n : ℤ) : Bool := decide (n ≠ 0)

/-- Numeric value of a Python bool (`True == 1`, `False == 0`). -/
def boolToInt (b : Bool) : ℤ := if b then 1 else 0

/-- Numeric value of a Python bool as a rational. -/
def boolToRat (b : Bool) : ℚ := if b then 1 else 0

/-- Comparison `abs(z) < bound` for the complex value `re + im*j`,
expressed without square roots: for `bound > 0` it is equivalent to
`re^2 + im^2 < bound^2`, and for `bound ≤ 0` it is false, exactly as the
genuine magnitude comparison. -/
def cAbsLt (re im bound : ℚ) : Bool :=
  decide (0 < bound) && decide (re * re + im * im < bound * bound)

/-- Modelled from the spec: `to_utc` lives in `pdtypes/util/parse.py`,
which is not under `src/`.  Per spec section 4.4 all datetimes are
normalized to a single reference offset (UTC) before arithmetic; on the
epoch-seconds representation used here that normalization is the
identity. -/
def to_utc (ts : ℚ) : ℚ := ts

/-- Canonical text rendering of an integer (`str(n)`). -/
def intRepr (n : ℤ) : String := toString n

/-- Canonical text rendering of a float, modelled abstractly. -/
def ratRepr (q : ℚ) : String := toString q

/-- Canonical text rendering of a complex value, modelled abstractly. -/
def complexRepr (re im : ℚ) : String :=
  "(" ++ toString re ++ "+" ++ toString im ++ "j)"

/-- Text rendering of a Python bool (`str(True) = "True"`). -/
def boolRepr (b : Bool) : String := if b then "True" else "False"

/-- Canonical (`isoformat`) rendering of a datetime, modelled abstractly
on the epoch-seconds representation. -/
def datetimeIso (ts : ℚ) : String := "datetime(" ++ toString ts ++ ")"

/-- Pattern (`strftime`) rendering of a datetime, modelled abstractly. -/
def strftimeRepr (pat : String) (ts : ℚ) : String :=
  pat ++ "(" ++ toString ts ++ ")"

/-- Canonical text rendering of a timedelta, modelled abstractly. -/
def timedeltaRepr (secs : ℚ) : String :=
  "Timedelta(" ++ toString secs ++ "s)"

/-! ### The string parsers behind `parse_string`

`parse_string` (`src/pdtypes/parse.py`, lines 33-84) delegates the
individual parse attempts to Python's `int()`, `float()`, `complex()` and
pandas' `to_timedelta` / `to_datetime`.  Those external parsers are
modelled below on the standard fragment of their grammars (decimal
literals without underscore grouping or `inf`/`nan` words; `a+bj` complex
literals; `"N day[s], H:MM:SS[.f]"` timedeltas; ISO `"YYYY-MM-DD"`
datetimes restricted to years from 1970 on). -/

/-- Strips leading and trailing whitespace (Python `str.strip`). -/
def trimChars (cs : List Char) : List Char :=
  ((cs.dropWhile Char.isWhitespace).reverse.dropWhile Char.isWhitespace).reverse

/-- Numeric value of a list of decimal digit characters. -/
def digitsVal (cs : List Char) : ℕ :=
  cs.foldl (fun a c => 10 * a + (c.toNat - 48)) 0

/-- Python `int(string)`: optional surrounding whitespace, optional sign,
then a nonempty run of decimal digits. -/
def pyParseInt (s : String) : Option ℤ :=
  let go : List Char → Option ℤ := fun cs =>
    if cs.isEmpty then none
    else if cs.all Char.isDigit then some (digitsVal cs : ℤ)
    else none
  match trimChars s.data with
  | '+' :: t => go t
  | '-' :: t => (go t).map Neg.neg
  | cs => go cs

/-- Unsigned float literal as a prefix of a character list: decimal digits
with an optional fractional part and an optional exponent.  Returns the
value and the unconsumed suffix. -/
def parseUFloat (cs : List Char) : Option (ℚ × List Char) :=
  let p1 := cs.span Char.isDigit
  let ip := p1.1
  let p2 : List Char × List Char :=
    match p1.2 with
    | '.' :: t => t.span Char.isDigit
    | _ => ([], p1.2)
  let fp := p2.1
  let rest := p2.2
  if ip.isEmpty && fp.isEmpty then none
  else
    let mant : ℚ := (digitsVal (ip ++ fp) : ℚ) / (10 : ℚ) ^ fp.length
    match rest with
    | 'e' :: t =>
        let q : ℤ × List Char :=
          match t with
          | '+' :: u => (1, u)
          | '-' :: u => (-1, u)
          | _ => (1, t)
        let p3 := q.2.span Char.isDigit
        if p3.1.isEmpty then none
        else some (mant * (10 : ℚ) ^ (q.1 * (digitsVal p3.1 : ℤ)), p3.2)
    | 'E' :: t =>
        let q : ℤ × List Char :=
          match t with
          | '+' :: u => (1, u)
          | '-' :: u => (-1, u)
          | _ => (1, t)
        let p3 := q.2.span Char.isDigit
        if p3.1.isEmpty then none
        else some (mant * (10 : ℚ) ^ (q.1 * (digitsVal p3.1 : ℤ)), p3.2)
    | _ => some (mant, rest)

/-- Signed float literal as a prefix of a character list. -/
def parseSFloat (cs : List Char) : Option (ℚ × List Char) :=
  match cs with
  | '+' :: t => parseUFloat t
  | '-' :: t => (parseUFloat t).map (fun p => (-p.1, p.2))
  | _ => parseUFloat cs

/-- Python `float(string)`: a signed float literal spanning the whole
(trimmed) string. -/
def pyParseFloat (s : String) : Option ℚ :=
  match parseSFloat (trimChars s.data) with
  | some (v, []) => some v
  | _ => none

/-- Strips a single pair of surrounding parentheses, failing on an
unbalanced opening parenthesis (as Python's `complex()` does). -/
def stripParens (cs : List Char) : Option (List Char) :=
  match cs with
  | '(' :: t => if t.getLast? = some ')' then some t.dropLast else none
  | cs => some cs

/-- Tail of a complex literal after the sign of the imaginary part: an
optional unsigned coefficient followed by the imaginary unit. -/
def parseImagTail (t : List Char) : Option ℚ :=
  match t with
  | ['j'] => some 1
  | ['J'] => some 1
  | _ =>
    match parseUFloat t with
    | some (w, ['j']) => some w
    | some (w, ['J']) => some w
    | _ => none

/-- Python `complex(string)`: `a`, `bj`, `a+bj` or `(a+bj)` forms. -/
def pyParseComplex (s : String) : Option (ℚ × ℚ) :=
  match stripParens (trimChars s.data) with
  | none => none
  | some cs =>
    match parseSFloat cs with
    | some (v, rest) =>
      match rest with
      | [] => some (v, 0)
      | ['j'] => some (0, v)
      | ['J'] => some (0, v)
      | '+' :: t => (parseImagTail t).map (fun w => (v, w))
      | '-' :: t => (parseImagTail t).map (fun w => (v, -w))
      | _ => none
    | none =>
      match cs with
      | ['j'] => some (0, 1)
      | ['J'] => some (0, 1)
      | ['+', 'j'] => some (0, 1)
      | ['-', 'j'] => some (0, -1)
      | _ => none

/-- Clock part `H:MM:SS[.frac]` of a timedelta string, in seconds. -/
def parseClock (cs : List Char) : Option ℚ :=
  let p1 := cs.span Char.isDigit
  if p1.1.isEmpty then none
  else
    match p1.2 with
    | ':' :: m1 :: m2 :: ':' :: s1 :: s2 :: rest =>
      if m1.isDigit && m2.isDigit && s1.isDigit && s2.isDigit then
        let base : ℚ :=
          3600 * (digitsVal p1.1 : ℚ) + 60 * (digitsVal [m1, m2] : ℚ) +
            (digitsVal [s1, s2] : ℚ)
        match rest with
        | [] => some base
        | '.' :: ds =>
          let p2 := ds.span Char.isDigit
          if p2.1.isEmpty || !p2.2.isEmpty then none
          else some (base + (digitsVal p2.1 : ℚ) / (10 : ℚ) ^ p2.1.length)
        | _ => none
      else none
    | _ => none

/-- Models `pd.to_timedelta(string)` on the `"N day[s][, ]H:MM:SS[.f]"`
and bare-clock fragments of its grammar; total seconds. -/
def pdParseTimedelta (s : String) : Option ℚ :=
  let cs := trimChars s.data
  let p1 := cs.span Char.isDigit
  match p1.2 with
  | ' ' :: 'd' :: 'a' :: 'y' :: rest =>
    if p1.1.isEmpty then none
    else
      let days : ℚ := (digitsVal p1.1 : ℚ)
      let rest2 := match rest with | 's' :: t => t | _ => rest
      match rest2 with
      | [] => some (86400 * days)
      | ',' :: ' ' :: t => (parseClock t).map (fun c => 86400 * days + c)
      | ' ' :: t => (parseClock t).map (fun c => 86400 * days + c)
      | _ => none
  | _ => parseClock cs

/-- Days between 1970-01-01 and the given civil date (standard
days-from-civil algorithm; only invoked for years from 1970 on, where all
integer divisions are on nonnegative operands). -/
def daysFromCivil (y m d : ℤ) : ℤ :=
  let y2 := if m ≤ 2 then y - 1 else y
  let era := y2 / 400
  let yoe := y2 - era * 400
  let mp := (m + 9) % 12
  let doy := (153 * mp + 2) / 5 + d - 1
  let doe := yoe * 365 + yoe / 4 - yoe / 100 + doy
  era * 146097 + doe - 719468

/-- Clock-with-offset part `HH:MM:SS[Z|+HH:MM|-HH:MM]` of a datetime
string, as UTC seconds within the day. -/
def parseClockTz (cs : List Char) : Option ℚ :=
  match cs with
  | h1 :: h2 :: ':' :: m1 :: m2 :: ':' :: s1 :: s2 :: rest =>
    if h1.isDigit && h2.isDigit && m1.isDigit && m2.isDigit &&
        s1.isDigit && s2.isDigit then
      let base : ℚ :=
        3600 * (digitsVal [h1, h2] : ℚ) + 60 * (digitsVal [m1, m2] : ℚ) +
          (digitsVal [s1, s2] : ℚ)
      match rest with
      | [] => some base
      | ['Z'] => some base
      | '+' :: o1 :: o2 :: ':' :: o3 :: o4 :: [] =>
        if o1.isDigit && o2.isDigit && o3.isDigit && o4.isDigit then
          some (base - (3600 * (digitsVal [o1, o2] : ℚ) +
            60 * (digitsVal [o3, o4] : ℚ)))
        else none
      | '-' :: o1 :: o2 :: ':' :: o3 :: o4 :: [] =>
        if o1.isDigit && o2.isDigit && o3.isDigit && o4.isDigit then
          some (base + (3600 * (digitsVal [o1, o2] : ℚ) +
            60 * (digitsVal [o3, o4] : ℚ)))
        else none
      | _ => none
    else none
  | _ => none

/-- Models `pd.to_datetime(string)` on ISO `"YYYY-MM-DD[ HH:MM:SS[tz]]"`
text, restricted to years from 1970 on; naive text is interpreted in the
canonical UTC zone.  Result: seconds since epoch. -/
def pdParseDatetime (s : String) : Option ℚ :=
  match trimChars s.data with
  | y1 :: y2 :: y3 :: y4 :: '-' :: m1 :: m2 :: '-' :: d1 :: d2 :: rest =>
    if y1.isDigit && y2.isDigit && y3.isDigit && y4.isDigit &&
        m1.isDigit && m2.isDigit && d1.isDigit && d2.isDigit then
      let y : ℤ := (digitsVal [y1, y2, y3, y4] : ℤ)
      let mo : ℤ := (digitsVal [m1, m2] : ℤ)
      let da : ℤ := (digitsVal [d1, d2] : ℤ)
      if y < 1970 || mo < 1 || 12 < mo || da < 1 || 31 < da then none
      else
        let dateSec : ℚ := 86400 * (daysFromCivil y mo da : ℚ)
        match rest with
        | [] => some dateSec
        | ' ' :: t => (parseClockTz t).map (fun c => dateSec + c)
        | 'T' :: t => (parseClockTz t).map (fun c => dateSec + c)
        | _ => none
    else none
  | _ => none

/-- Embeds `parse_string` (`src/pdtypes/parse.py`, lines 33-84): the fixed
inference cascade integer, float, complex, timedelta, datetime, boolean
literal, plain text; first successful parse wins.  (`apply.py` imports
this function from the absent `pdtypes/util/parse.py` and passes it a
`format` keyword; per spec section 6 that option only selects a structured
datetime pattern and it is `None` on every path considered here, so the
cascade below is the whole behaviour.) -/
def parse_string (s : String) : PyVal :=
  match pyParseInt s with
  | some n => .vInt n
  | none =>
  match pyParseFloat s with
  | some q => .vFloat q
  | none =>
  match pyParseComplex s with
  | some p => .vComplex p.1 p.2
  | none =>
  match pdParseTimedelta s with
  | some secs => .vTimedelta secs
  | none =>
  match pdParseDatetime s with
  | some ts => .vDatetime ts
  | none =>
  let lower := (trimChars s.data).map Char.toLower
  if lower = "t".data ∨ lower = "true".data then .vBool true
  else if lower = "f".data ∨ lower = "false".data then .vBool false
  else .vStr s

/-! ### The per-pair conversion rules of `apply.py`

Each rule takes the embedded element, checks `pd.isnull` (the four null
constructors), and otherwise operates on the constructor matching its
Python parameter type.  The final wildcard case of each rule is
unreachable through the dispatcher (Python would raise a `TypeError` on a
mistyped element, which is what the wildcard returns). -/

/-- Embeds `integer_to_float` (apply.py lines 18-24). -/
def integer_to_float (element : PyVal) : Res :=
  match element with
  | .vNone | .vNaN | .vNA | .vNaT => .ok .vNaN
  | .vInt n => .ok (.vFloat (n : ℚ))
  | _ => .error .typeError

/-- Embeds `integer_to_complex` (apply.py lines 27-33). -/
def integer_to_complex (element : PyVal) : Res :=
  match element with
  | .vNone | .vNaN | .vNA | .vNaT => .ok .vNaN
  | .vInt n => .ok (.vComplex (n : ℚ) 0)
  | _ => .error .typeError

/-- Embeds `integer_to_string` (apply.py lines 36-42); note the null case
returns `None`, not `pd.NA`. -/
def integer_to_string (element : PyVal) : Res :=
  match element with
  | .vNone | .vNaN | .vNA | .vNaT => .ok .vNone
  | .vInt n => .ok (.vStr (intRepr n))
  | _ => .error .typeError

/-- Embeds `integer_to_boolean` (apply.py lines 45-57): `result = bool(n)`
is accepted iff `result == element` (with `True == 1`, `False == 0`) or
`force`; the function takes no tolerance parameter. -/
def integer_to_boolean (element : PyVal) (force : Bool) : Res :=
  match element with
  | .vNone | .vNaN | .vNA | .vNaT => .ok .vNA
  | .vInt n =>
    let result := pyBoolInt n
    if boolToInt result = n ∨ force = true then .ok (.vBool result)
    else .error (.valueError "int to bool" element)
  | _ => .error .typeError

/-- Embeds `integer_to_datetime` (apply.py lines 60-66):
`fromtimestamp(element, tz=utc)`. -/
def integer_to_datetime (element : PyVal) : Res :=
  match element with
  | .vNone | .vNaN | .vNA | .vNaT => .ok .vNaT
  | .vInt n => .ok (.vDatetime (n : ℚ))
  | _ => .error .typeError

/-- Embeds `integer_to_timedelta` (apply.py lines 69-75):
`Timedelta(seconds=int(element))`. -/
def integer_to_timedelta (element : PyVal) : Res :=
  match element with
  | .vNone | .vNaN | .vNA | .vNaT => .ok .vNaT
  | .vInt n => .ok (.vTimedelta (n : ℚ))
  | _ => .error .typeError

/-- Embeds `float_to_integer` (apply.py lines 78-96): the nearest integer
(`np.round`) is the candidate when `round` is set or it is within `ftol`
of the element, else the truncation; the candidate is returned iff `force`
or it is within `ftol` of the element. -/
def float_to_integer (element : PyVal) (force round : Bool) (ftol : ℚ) :
    Res :=
  match element with
  | .vNone | .vNaN | .vNA | .vNaT => .ok .vNaN
  | .vFloat x =>
    let rounded := npRound x
    let result :=
      if round = true ∨ |(rounded : ℚ) - x| < ftol then rounded
      else ratTrunc x
    if force = true ∨ |(result : ℚ) - x| < ftol then .ok (.vInt result)
    else .error (.valueError "float to int" element)
  | _ => .error .typeError

/-- Embeds `float_to_complex` (apply.py lines 99-105). -/
def float_to_complex (element : PyVal) : Res :=
  match element with
  | .vNone | .vNaN | .vNA | .vNaT => .ok .vNaN
  | .vFloat x => .ok (.vComplex x 0)
  | _ => .error .typeError

/-- Embeds `float_to_string` (apply.py lines 108-114); the null case
returns `None`. -/
def float_to_string (element : PyVal) : Res :=
  match element with
  | .vNone | .vNaN | .vNA | .vNaT => .ok .vNone
  | .vFloat x => .ok (.vStr (ratRepr x))
  | _ => .error .typeError

/-- Embeds `_float_to_boolean` (apply.py lines 117-134): the candidate is
`bool(np.round(x))` when the rounding is within `ftol`, else `bool(x)`;
returned iff `force` or the candidate (as 0/1) is within `ftol` of `x`. -/
def _float_to_boolean (element : PyVal) (force : Bool) (ftol : ℚ) : Res :=
  match element with
  | .vNone | .vNaN | .vNA | .vNaT => .ok .vNA
  | .vFloat x =>
    let rounded := npRound x
    let result :=
      if |(rounded : ℚ) - x| < ftol then pyBoolInt rounded else pyBool x
    if force = true ∨ |boolToRat result - x| < ftol then .ok (.vBool result)
    else .error (.valueError "float to bool" element)
  | _ => .error .typeError

/-- Embeds `_float_to_datetime` (apply.py lines 137-143). -/
def _float_to_datetime (element : PyVal) : Res :=
  match element with
  | .vNone | .vNaN | .vNA | .vNaT => .ok .vNaT
  | .vFloat x => .ok (.vDatetime x)
  | _ => .error .typeError

/-- Embeds `_float_to_timedelta` (apply.py lines 146-152). -/
def _float_to_timedelta (element : PyVal) : Res :=
  match element with
  | .vNone | .vNaN | .vNA | .vNaT => .ok .vNaT
  | .vFloat x => .ok (.vTimedelta x)
  | _ => .error .typeError

/-- Embeds `_complex_to_integer` (apply.py lines 155-173); the distance
comparisons are against the complex element, hence `cAbsLt` on the real
difference and the imaginary part. -/
def _complex_to_integer (element : PyVal) (round force : Bool) (ftol : ℚ) :
    Res :=
  match element with
  | .vNone | .vNaN | .vNA | .vNaT => .ok .vNaN
  | .vComplex re im =>
    let rounded := npRound re
    let result :=
      if round = true ∨ cAbsLt ((rounded : ℚ) - re) im ftol = true then
        rounded
      else ratTrunc re
    if force = true ∨ cAbsLt ((result : ℚ) - re) im ftol = true then
      .ok (.vInt result)
    else .error (.valueError "complex to int" element)
  | _ => .error .typeError

/-- Embeds `_complex_to_float` (apply.py lines 176-188): keeps the real
part iff `force` or `abs(imag) < ftol`. -/
def _complex_to_float (element : PyVal) (force : Bool) (ftol : ℚ) : Res :=
  match element with
  | .vNone | .vNaN | .vNA | .vNaT => .ok .vNaN
  | .vComplex re im =>
    if force = true ∨ |im| < ftol then .ok (.vFloat re)
    else .error (.valueError "complex to float" element)
  | _ => .error .typeError

/-- Embeds `_complex_to_string` (apply.py lines 191-197). -/
def _complex_to_string (element : PyVal) : Res :=
  match element with
  | .vNone | .vNaN | .vNA | .vNaT => .ok .vNA
  | .vComplex re im => .ok (.vStr (complexRepr re im))
  | _ => .error .typeError

/-- Embeds `_complex_to_boolean` (apply.py lines 200-217). -/
def _complex_to_boolean (element : PyVal) (force : Bool) (ftol : ℚ) : Res :=
  match element with
  | .vNone | .vNaN | .vNA | .vNaT => .ok .vNA
  | .vComplex re im =>
    let rounded := npRound re
    let result :=
      if cAbsLt ((rounded : ℚ) - re) im ftol = true then pyBoolInt rounded
      else pyBool re
    if force = true ∨ cAbsLt (boolToRat result - re) im ftol = true then
      .ok (.vBool result)
    else .error (.valueError "complex to bool" element)
  | _ => .error .typeError

/-- Embeds `_complex_to_datetime` (apply.py lines 220-232). -/
def _complex_to_datetime (element : PyVal) (force : Bool) (ftol : ℚ) :
    Res :=
  match element with
  | .vNone | .vNaN | .vNA | .vNaT => .ok .vNaT
  | .vComplex re im =>
    if force = true ∨ |im| < ftol then .ok (.vDatetime re)
    else .error (.valueError "complex to datetime" element)
  | _ => .error .typeError

/-- Embeds `_complex_to_timedelta` (apply.py lines 235-247). -/
def _complex_to_timedelta (element : PyVal) (force : Bool) (ftol : ℚ) :
    Res :=
  match element with
  | .vNone | .vNaN | .vNA | .vNaT => .ok .vNaT
  | .vComplex re im =>
    if force = true ∨ |im| < ftol then .ok (.vTimedelta re)
    else .error (.valueError "complex to timedelta" element)
  | _ => .error .typeError

/-- Embeds `_boolean_to_integer` (apply.py lines 457-463). -/
def _boolean_to_integer (element : PyVal) : Res :=
  match element with
  | .vNone | .vNaN | .vNA | .vNaT => .ok .vNaN
  | .vBool b => .ok (.vInt (boolToInt b))
  | _ => .error .typeError

/-- Embeds `_boolean_to_float` (apply.py lines 466-472). -/
def _boolean_to_float (element : PyVal) : Res :=
  match element with
  | .vNone | .vNaN | .vNA | .vNaT => .ok .vNaN
  | .vBool b => .ok (.vFloat (boolToRat b))
  | _ => .error .typeError

/-- Embeds `_boolean_to_complex` (apply.py lines 475-481). -/
def _boolean_to_complex (element : PyVal) : Res :=
  match element with
  | .vNone | .vNaN | .vNA | .vNaT => .ok .vNaN
  | .vBool b => .ok (.vComplex (boolToRat b) 0)
  | _ => .error .typeError

/-- Embeds `_boolean_to_string` (apply.py lines 484-490). -/
def _boolean_to_string (element : PyVal) : Res :=
  match element with
  | .vNone | .vNaN | .vNA | .vNaT => .ok .vNA
  | .vBool b => .ok (.vStr (boolRepr b))
  | _ => .error .typeError

/-- Embeds `_boolean_to_datetime` (apply.py lines 493-499). -/
def _boolean_to_datetime (element : PyVal) : Res :=
  match element with
  | .vNone | .vNaN | .vNA | .vNaT => .ok .vNaT
  | .vBool b => .ok (.vDatetime (boolToRat b))
  | _ => .error .typeError

/-- Embeds `_boolean_to_timedelta` (apply.py lines 502-508). -/
def _boolean_to_timedelta (element : PyVal) : Res :=
  match element with
  | .vNone | .vNaN | .vNA | .vNaT => .ok .vNaT
  | .vBool b => .ok (.vTimedelta (boolToRat b))
  | _ => .error .typeError

/-- Embeds `_datetime_to_integer` (apply.py lines 511-530): the loss gate
is applied to `to_utc(element).timestamp()`. -/
def _datetime_to_integer (element : PyVal) (round force : Bool) (ftol : ℚ) :
    Res :=
  match element with
  | .vNone | .vNaN | .vNA | .vNaT => .ok .vNaN
  | .vDatetime ts =>
    let timestamp := to_utc ts
    let rounded := npRound timestamp
    let result :=
      if round = true ∨ |(rounded : ℚ) - timestamp| < ftol then rounded
      else ratTrunc timestamp
    if force = true ∨ |(result : ℚ) - timestamp| < ftol then
      .ok (.vInt result)
    else .error (.valueError "datetime to int" element)
  | _ => .error .typeError

/-- Embeds `_datetime_to_float` (apply.py lines 533-539). -/
def _datetime_to_float (element : PyVal) : Res :=
  match element with
  | .vNone | .vNaN | .vNA | .vNaT => .ok .vNaN
  | .vDatetime ts => .ok (.vFloat (to_utc ts))
  | _ => .error .typeError

/-- Embeds `_datetime_to_complex` (apply.py lines 542-548). -/
def _datetime_to_complex (element : PyVal) : Res :=
  match element with
  | .vNone | .vNaN | .vNA | .vNaT => .ok .vNaN
  | .vDatetime ts => .ok (.vComplex (to_utc ts) 0)
  | _ => .error .typeError

/-- Embeds `_datetime_to_string` (apply.py lines 551-560). -/
def _datetime_to_string (element : PyVal) (format : Option String) : Res :=
  match element with
  | .vNone | .vNaN | .vNA | .vNaT => .ok .vNA
  | .vDatetime ts =>
    match format with
    | none => .ok (.vStr (datetimeIso (to_utc ts)))
    | some pat => .ok (.vStr (strftimeRepr pat (to_utc ts)))
  | _ => .error .typeError

/-- Embeds `_datetime_to_boolean` (apply.py lines 563-577):
`result = bool(timestamp)`, accepted iff within `ftol` or `force`. -/
def _datetime_to_boolean (element : PyVal) (force : Bool) (ftol : ℚ) :
    Res :=
  match element with
  | .vNone | .vNaN | .vNA | .vNaT => .ok .vNA
  | .vDatetime ts =>
    let timestamp := to_utc ts
    let result := pyBool timestamp
    if |boolToRat result - timestamp| < ftol ∨ force = true then
      .ok (.vBool result)
    else .error (.valueError "datetime to bool" element)
  | _ => .error .typeError

/-- Embeds `_datetime_to_timedelta` (apply.py lines 580-586):
`Timedelta(seconds=to_utc(element).timestamp())`. -/
def _datetime_to_timedelta (element : PyVal) : Res :=
  match element with
  | .vNone | .vNaN | .vNA | .vNaT => .ok .vNaT
  | .vDatetime ts => .ok (.vTimedelta (to_utc ts))
  | _ => .error .typeError

/-- Embeds `_timedelta_to_integer` (apply.py lines 589-608). -/
def _timedelta_to_integer (element : PyVal) (round force : Bool) (ftol : ℚ) :
    Res :=
  match element with
  | .vNone | .vNaN | .vNA | .vNaT => .ok .vNaN
  | .vTimedelta secs =>
    let rounded := npRound secs
    let result :=
      if round = true ∨ |(rounded : ℚ) - secs| < ftol then rounded
      else ratTrunc secs
    if force = true ∨ |(result : ℚ) - secs| < ftol then .ok (.vInt result)
    else .error (.valueError "timedelta to int" element)
  | _ => .error .typeError

/-- Embeds `_timedelta_to_float` (apply.py lines 611-617). -/
def _timedelta_to_float (element : PyVal) : Res :=
  match element with
  | .vNone | .vNaN | .vNA | .vNaT => .ok .vNaN
  | .vTimedelta secs => .ok (.vFloat secs)
  | _ => .error .typeError

/-- Embeds `_timedelta_to_complex` (apply.py lines 620-626). -/
def _timedelta_to_complex (element : PyVal) : Res :=
  match element with
  | .vNone | .vNaN | .vNA | .vNaT => .ok .vNaN
  | .vTimedelta secs => .ok (.vComplex secs 0)
  | _ => .error .typeError

/-- Embeds `_timedelta_to_string` (apply.py lines 629-635). -/
def _timedelta_to_string (element : PyVal) : Res :=
  match element with
  | .vNone | .vNaN | .vNA | .vNaT => .ok .vNA
  | .vTimedelta secs => .ok (.vStr (timedeltaRepr secs))
  | _ => .error .typeError

/-- Embeds `_timedelta_to_boolean` (apply.py lines 638-652). -/
def _timedelta_to_boolean (element : PyVal) (force : Bool) (ftol : ℚ) :
    Res :=
  match element with
  | .vNone | .vNaN | .vNA | .vNaT => .ok .vNA
  | .vTimedelta secs =>
    let result := pyBool secs
    if |boolToRat result - secs| < ftol ∨ force = true then
      .ok (.vBool result)
    else .error (.valueError "timedelta to bool" element)
  | _ => .error .typeError

/-- Embeds `_timedelta_to_datetime` (apply.py lines 655-661):
`fromtimestamp(element.total_seconds(), tz=utc)`. -/
def _timedelta_to_datetime (element : PyVal) : Res :=
  match element with
  | .vNone | .vNaN | .vNA | .vNaT => .ok .vNaT
  | .vTimedelta secs => .ok (.vDatetime secs)
  | _ => .error .typeError

/-! ### Dispatch through the conversion maps

Every `conversion_map` of `apply.py` is a dictionary from a parsed dtype
to a callable.  It is embedded as a function `Kind → Option (PyVal → Res)`
(`none` is a missing key); `applyCell` models `conversion_map[k](element)`
with its `KeyError` on a missing key, and `normalizeErr` models the
`except (KeyError, ValueError): raise ValueError(err_msg)` clause that
follows every lookup — other exception classes pass through uncaught. -/

/-- Models `conversion_map[k](x)`: `KeyError` on a missing key. -/
def applyCell (m : Kind → Option (PyVal → Res)) (k : Kind) (x : PyVal) :
    Res :=
  match m k with
  | none => .error .keyError
  | some f => f x

/-- Models `except (KeyError, ValueError): raise ValueError(err_msg)`:
those two classes are replaced by a `ValueError` carrying the context and
the original element; any other exception propagates unchanged. -/
def normalizeErr (context : String) (original : PyVal) : Res → Res
  | .ok v => .ok v
  | .error .keyError => .error (.valueError context original)
  | .error (.valueError _ _) => .error (.valueError context original)
  | .error .typeError => .error .typeError
  | .error .attributeError => .error .attributeError

/-- Inner map of `_string_to_integer` (apply.py lines 260-277): no `str`
or `object` key, so unparseable text produces a `KeyError`. -/
def _string_to_integer_map (round force : Bool) (ftol : ℚ) :
    Kind → Option (PyVal → Res)
  | .int => some (fun x =>
      match x with
      | .vInt n => .ok (.vInt n)
      | _ => .error .typeError)
  | .float => some (fun x => float_to_integer x force round ftol)
  | .complex => some (fun x => _complex_to_integer x round force ftol)
  | .bool => some (fun x => _boolean_to_integer x)
  | .datetime => some (fun x => _datetime_to_integer x round force ftol)
  | .timedelta => some (fun x => _timedelta_to_integer x round force ftol)
  | .str => none
  | .obj => none

/-- Embeds `_string_to_integer` (apply.py lines 250-285): parse the text,
dispatch on the inferred kind, and normalize `KeyError`/`ValueError`. -/
def _string_to_integer (element : PyVal) (round force : Bool) (ftol : ℚ)
    (format : Option String) : Res :=
  match element with
  | .vNone | .vNaN | .vNA | .vNaT => .ok .vNaN
  | .vStr s =>
    let parsed := parse_string s
    normalizeErr "str to int" element
      (applyCell (_string_to_integer_map round force ftol)
        (parse_dtype parsed) parsed)
  | _ => .error .typeError

/-- Inner map of `_string_to_float` (apply.py lines 297-311). -/
def _string_to_float_map (force : Bool) (ftol : ℚ) :
    Kind → Option (PyVal → Res)
  | .int => some (fun x => integer_to_float x)
  | .float => some (fun x =>
      match x with
      | .vFloat q => .ok (.vFloat q)
      | _ => .error .typeError)
  | .complex => some (fun x => _complex_to_float x force ftol)
  | .bool => some (fun x => _boolean_to_float x)
  | .datetime => some (fun x => _datetime_to_float x)
  | .timedelta => some (fun x => _timedelta_to_float x)
  | .str => none
  | .obj => none

/-- Embeds `_string_to_float` (apply.py lines 288-319). -/
def _string_to_float (element : PyVal) (force : Bool) (ftol : ℚ)
    (format : Option String) : Res :=
  match element with
  | .vNone | .vNaN | .vNA | .vNaT => .ok .vNaN
  | .vStr s =>
    let parsed := parse_string s
    normalizeErr "str to float" element
      (applyCell (_string_to_float_map force ftol)
        (parse_dtype parsed) parsed)
  | _ => .error .typeError

/-- Inner map of `_string_to_complex` (apply.py lines 329-342). -/
def _string_to_complex_map : Kind → Option (PyVal → Res)
  | .int => some (fun x => integer_to_complex x)
  | .float => some (fun x => float_to_complex x)
  | .complex => some (fun x =>
      match x with
      | .vComplex re im => .ok (.vComplex re im)
      | _ => .error .typeError)
  | .bool => some (fun x => _boolean_to_complex x)
  | .datetime => some (fun x => _datetime_to_complex x)
  | .timedelta => some (fun x => _timedelta_to_complex x)
  | .str => none
  | .obj => none

/-- Embeds `_string_to_complex` (apply.py lines 322-350). -/
def _string_to_complex (element : PyVal) (format : Option String) : Res :=
  match element with
  | .vNone | .vNaN | .vNA | .vNaT => .ok .vNaN
  | .vStr s =>
    let parsed := parse_string s
    normalizeErr "str to complex" element
      (applyCell _string_to_complex_map (parse_dtype parsed) parsed)
  | _ => .error .typeError

/-- Inner map of `_string_to_boolean` (apply.py lines 362-379); the `int`
cell passes only `force` to `integer_to_boolean` (line 364), so no
tolerance is involved for integer-parsed text. -/
def _string_to_boolean_map (force : Bool) (ftol : ℚ) :
    Kind → Option (PyVal → Res)
  | .int => some (fun x => integer_to_boolean x force)
  | .float => some (fun x => _float_to_boolean x force ftol)
  | .complex => some (fun x => _complex_to_boolean x force ftol)
  | .bool => some (fun x =>
      match x with
      | .vBool b => .ok (.vBool b)
      | _ => .error .typeError)
  | .datetime => some (fun x => _datetime_to_boolean x force ftol)
  | .timedelta => some (fun x => _timedelta_to_boolean x force ftol)
  | .str => none
  | .obj => none

/-- Embeds `_string_to_boolean` (apply.py lines 353-387). -/
def _string_to_boolean (element : PyVal) (force : Bool) (ftol : ℚ)
    (format : Option String) : Res :=
  match element with
  | .vNone | .vNaN | .vNA | .vNaT => .ok .vNA
  | .vStr s =>
    let parsed := parse_string s
    normalizeErr "str to bool" element
      (applyCell (_string_to_boolean_map force ftol)
        (parse_dtype parsed) parsed)
  | _ => .error .typeError

/-- Embeds `_string_to_datetime` (apply.py lines 390-421).  Building its
conversion map eagerly evaluates `return_type(return_type)` on line 408 —
that is `pd.Timestamp(pd.Timestamp)`, which raises a `TypeError` — before
the `try` block is entered, so every call on a non-null element fails with
that raw `TypeError` and the remaining branches are unreachable. -/
def _string_to_datetime (element : PyVal) (force : Bool) (ftol : ℚ)
    (format : Option String) : Res :=
  match element with
  | .vNone | .vNaN | .vNA | .vNaT => .ok .vNaT
  | _ => .error .typeError

/-- Inner map of `_string_to_timedelta` (apply.py lines 432-446).  The
`timedelta` cell (line 445) is `lambda x: return_type(seconds=element.total_seconds())`:
it ignores `x` and calls `.total_seconds()` on `element`, the original
string, raising a raw `AttributeError`.  The `complex` cell (line 438)
passes only `force`, so `_complex_to_timedelta` runs at its default
tolerance. -/
def _string_to_timedelta_map (force : Bool) :
    Kind → Option (PyVal → Res)
  | .int => some (fun x => integer_to_timedelta x)
  | .float => some (fun x => _float_to_timedelta x)
  | .complex => some (fun x => _complex_to_timedelta x force defaultFtol)
  | .bool => some (fun x => _boolean_to_timedelta x)
  | .datetime => some (fun x => _datetime_to_timedelta x)
  | .timedelta => some (fun _ => .error .attributeError)
  | .str => none
  | .obj => none

/-- Embeds `_string_to_timedelta` (apply.py lines 424-454).  Note its
signature takes no `ftol` parameter. -/
def _string_to_timedelta (element : PyVal) (force : Bool)
    (format : Option String) : Res :=
  match element with
  | .vNone | .vNaN | .vNA | .vNaT => .ok .vNaT
  | .vStr s =>
    let parsed := parse_string s
    normalizeErr "str to timedelta" element
      (applyCell (_string_to_timedelta_map force)
        (parse_dtype parsed) parsed)
  | _ => .error .typeError

/-! ### The memoized entry points

Each entry point checks `pd.isnull` first (returning the target's own
missing sentinel before anything else runs), classifies the element,
looks up the matrix cell and applies it, normalizing `KeyError` and
`ValueError` into a single user-facing `ValueError`.  Memoization
(`@cache`) is semantically invisible: the functions are pure. -/

/-- Cells of `to_integer` (apply.py lines 675-697). -/
def to_integer_map (round force : Bool) (ftol : ℚ)
    (format : Option String) : Kind → Option (PyVal → Res)
  | .int => some (fun x =>
      match x with
      | .vInt n => .ok (.vInt n)
      | _ => .error .typeError)
  | .float => some (fun x => float_to_integer x force round ftol)
  | .complex => some (fun x => _complex_to_integer x round force ftol)
  | .str => some (fun x => _string_to_integer x round force ftol format)
  | .bool => some (fun x => _boolean_to_integer x)
  | .datetime => some (fun x => _datetime_to_integer x round force ftol)
  | .timedelta => some (fun x => _timedelta_to_integer x round force ftol)
  | .obj => some (fun x =>
      match x with
      | .vObj q => .ok (.vInt (ratTrunc q))
      | _ => .error .typeError)

/-- Embeds `to_integer` (apply.py lines 664-704). -/
def to_integer (element : PyVal) (round force : Bool) (ftol : ℚ)
    (format : Option String) : Res :=
  if pdIsNull element then .ok .vNaN
  else
    normalizeErr "element to int" element
      (applyCell (to_integer_map round force ftol format)
        (parse_dtype element) element)

/-- Cells of `to_float` (apply.py lines 717-736). -/
def to_float_map (force : Bool) (ftol : ℚ) (format : Option String) :
    Kind → Option (PyVal → Res)
  | .int => some (fun x => integer_to_float x)
  | .float => some (fun x =>
      match x with
      | .vFloat q => .ok (.vFloat q)
      | _ => .error .typeError)
  | .complex => some (fun x => _complex_to_float x force ftol)
  | .str => some (fun x => _string_to_float x force ftol format)
  | .bool => some (fun x => _boolean_to_float x)
  | .datetime => some (fun x => _datetime_to_float x)
  | .timedelta => some (fun x => _timedelta_to_float x)
  | .obj => some (fun x =>
      match x with
      | .vObj q => .ok (.vFloat q)
      | _ => .error .typeError)

/-- Embeds `to_float` (apply.py lines 707-743). -/
def to_float (element : PyVal) (force : Bool) (ftol : ℚ)
    (format : Option String) : Res :=
  if pdIsNull element then .ok .vNaN
  else
    normalizeErr "element to float" element
      (applyCell (to_float_map force ftol format)
        (parse_dtype element) element)

/-- Cells of `to_complex` (apply.py lines 754-771). -/
def to_complex_map (format : Option String) :
    Kind → Option (PyVal → Res)
  | .int => some (fun x => integer_to_complex x)
  | .float => some (fun x => float_to_complex x)
  | .complex => some (fun x =>
      match x with
      | .vComplex re im => .ok (.vComplex re im)
      | _ => .error .typeError)
  | .str => some (fun x => _string_to_complex x format)
  | .bool => some (fun x => _boolean_to_complex x)
  | .datetime => some (fun x => _datetime_to_complex x)
  | .timedelta => some (fun x => _timedelta_to_complex x)
  | .obj => some (fun x =>
      match x with
      | .vObj q => .ok (.vComplex q 0)
      | _ => .error .typeError)

/-- Embeds `to_complex` (apply.py lines 746-778). -/
def to_complex (element : PyVal) (format : Option String) : Res :=
  if pdIsNull element then .ok .vNaN
  else
    normalizeErr "element to complex" element
      (applyCell (to_complex_map format) (parse_dtype element) element)

/-- Cells of `to_boolean` (apply.py lines 791-814).  The `int` cell
(line 793) builds `partial(integer_to_boolean, force=force, ftol=ftol, ...)`
but `integer_to_boolean` has no `ftol` parameter, so calling the cell
raises a raw `TypeError` (unexpected keyword argument). -/
def to_boolean_map (force : Bool) (ftol : ℚ) (format : Option String) :
    Kind → Option (PyVal → Res)
  | .int => some (fun _ => .error .typeError)
  | .float => some (fun x => _float_to_boolean x force ftol)
  | .complex => some (fun x => _complex_to_boolean x force ftol)
  | .str => some (fun x => _string_to_boolean x force ftol format)
  | .bool => some (fun x =>
      match x with
      | .vBool b => .ok (.vBool b)
      | _ => .error .typeError)
  | .datetime => some (fun x => _datetime_to_boolean x force ftol)
  | .timedelta => some (fun x => _timedelta_to_boolean x force ftol)
  | .obj => some (fun x =>
      match x with
      | .vObj q => .ok (.vBool (pyBool q))
      | _ => .error .typeError)

/-- Embeds `to_boolean` (apply.py lines 781-821). -/
def to_boolean (element : PyVal) (force : Bool) (ftol : ℚ)
    (format : Option String) : Res :=
  if pdIsNull element then .ok .vNA
  else
    normalizeErr "element to bool" element
      (applyCell (to_boolean_map force ftol format)
        (parse_dtype element) element)

/-- Cells of `to_string` (apply.py lines 832-850). -/
def to_string_map (format : Option String) :
    Kind → Option (PyVal → Res)
  | .int => some (fun x => integer_to_string x)
  | .float => some (fun x => float_to_string x)
  | .complex => some (fun x => _complex_to_string x)
  | .str => some (fun x =>
      match x with
      | .vStr s => .ok (.vStr s)
      | _ => .error .typeError)
  | .bool => some (fun x => _boolean_to_string x)
  | .datetime => some (fun x => _datetime_to_string x format)
  | .timedelta => some (fun x => _timedelta_to_string x)
  | .obj => some (fun x =>
      match x with
      | .vObj q => .ok (.vStr (ratRepr q))
      | _ => .error .typeError)

/-- Embeds `to_string` (apply.py lines 824-857). -/
def to_string (element : PyVal) (format : Option String) : Res :=
  if pdIsNull element then .ok .vNA
  else
    normalizeErr "element to string" element
      (applyCell (to_string_map format) (parse_dtype element) element)

/-- Cells of `to_datetime` (apply.py lines 871-889); the map has no
`object` key. -/
def to_datetime_map (force : Bool) (ftol : ℚ) (format : Option String) :
    Kind → Option (PyVal → Res)
  | .int => some (fun x => integer_to_datetime x)
  | .float => some (fun x => _float_to_datetime x)
  | .complex => some (fun x => _complex_to_datetime x force ftol)
  | .str => some (fun x => _string_to_datetime x force ftol format)
  | .bool => some (fun x => _boolean_to_datetime x)
  | .datetime => some (fun x =>
      match x with
      | .vDatetime ts => .ok (.vDatetime (to_utc ts))
      | _ => .error .typeError)
  | .timedelta => some (fun x => _timedelta_to_datetime x)
  | .obj => none

/-- Embeds `to_datetime` (apply.py lines 860-896). -/
def to_datetime (element : PyVal) (force : Bool) (ftol : ℚ)
    (format : Option String) : Res :=
  if pdIsNull element then .ok .vNaT
  else
    normalizeErr "element to datetime" element
      (applyCell (to_datetime_map force ftol format)
        (parse_dtype element) element)

/-- Cells of `to_timedelta` (apply.py lines 908-925); the map has no
`object` key.  The `str` cell (line 917) builds
`partial(_string_to_timedelta, force=force, ftol=ftol, ...)` but
`_string_to_timedelta` has no `ftol` parameter, so calling the cell raises
a raw `TypeError` (unexpected keyword argument). -/
def to_timedelta_map (force : Bool) (ftol : ℚ) :
    Kind → Option (PyVal → Res)
  | .int => some (fun x => integer_to_timedelta x)
  | .float => some (fun x => _float_to_timedelta x)
  | .complex => some (fun x => _complex_to_timedelta x force ftol)
  | .str => some (fun _ => .error .typeError)
  | .bool => some (fun x => _boolean_to_timedelta x)
  | .datetime => some (fun x => _datetime_to_timedelta x)
  | .timedelta => some (fun x =>
      match x with
      | .vTimedelta secs => .ok (.vTimedelta secs)
      | _ => .error .typeError)
  | .obj => none

/-- Embeds `to_timedelta` (apply.py lines 899-932). -/
def to_timedelta (element : PyVal) (force : Bool) (ftol : ℚ) : Res :=
  if pdIsNull element then .ok .vNaT
  else
    normalizeErr "element to timedelta" element
      (applyCell (to_timedelta_map force ftol)
        (parse_dtype element) element)

/-! ### Helper lemmas about rounding and truncation -/

theorem ratFloor_eq (q : ℚ) : ratFloor q = ⌊q⌋ := Rat.floor_def.symm

theorem ratCeil_eq (q : ℚ) : ratCeil q = ⌈q⌉ := by
  rw [ratCeil, ratFloor_eq, show (⌈q⌉ : ℤ) = -⌊-q⌋ from by
    rw [← Int.ceil_neg, neg_neg]]

theorem floor_add_small (n : ℤ) (e : ℚ) (h0 : 0 ≤ e) (h1 : e < 1) :
    ⌊(n : ℚ) + e⌋ = n := by
  rw [Int.floor_eq_iff]
  constructor
  · linarith
  · push_cast
    linarith

theorem npRound_int_add (n : ℤ) (e : ℚ) (h0 : 0 ≤ e) (h1 : e < 1 / 2) :
    npRound ((n : ℚ) + e) = n := by
  have hfl : ⌊(n : ℚ) + e⌋ = n := floor_add_small n e h0 (by linarith)
  have hfr : (n : ℚ) + e - (n : ℤ) = e := by push_cast; ring
  simp only [npRound, ratFloor_eq, hfl, hfr]
  rw [if_pos h1]

theorem npRound_intCast (n : ℤ) : npRound ((n : ℤ) : ℚ) = n := by
  have := npRound_int_add n 0 le_rfl (by norm_num)
  simpa using this

theorem npRound_nearest (x : ℚ) (m : ℤ) :
    |(npRound x : ℚ) - x| ≤ |(m : ℚ) - x| := by
  have hfl : ((⌊x⌋ : ℤ) : ℚ) ≤ x := Int.floor_le x
  have hfu : x < ((⌊x⌋ : ℤ) : ℚ) + 1 := Int.lt_floor_add_one x
  have hm : (m : ℚ) ≤ ((⌊x⌋ : ℤ) : ℚ) ∨ ((⌊x⌋ : ℤ) : ℚ) + 1 ≤ (m : ℚ) := by
    rcases le_or_lt m ⌊x⌋ with h | h
    · left
      exact_mod_cast h
    · right
      have : ⌊x⌋ + 1 ≤ m := h
      exact_mod_cast this
  have hmlow : ∀ hm2 : (m : ℚ) ≤ ((⌊x⌋ : ℤ) : ℚ),
      x - ((⌊x⌋ : ℤ) : ℚ) ≤ |(m : ℚ) - x| := by
    intro hm2
    calc x - ((⌊x⌋ : ℤ) : ℚ) ≤ x - (m : ℚ) := by linarith
    _ = -((m : ℚ) - x) := by ring
    _ ≤ |(m : ℚ) - x| := neg_le_abs _
  have hmhigh : ∀ hm2 : ((⌊x⌋ : ℤ) : ℚ) + 1 ≤ (m : ℚ),
      ((⌊x⌋ : ℤ) : ℚ) + 1 - x ≤ |(m : ℚ) - x| := by
    intro hm2
    calc ((⌊x⌋ : ℤ) : ℚ) + 1 - x ≤ (m : ℚ) - x := by linarith
    _ ≤ |(m : ℚ) - x| := le_abs_self _
  simp only [npRound, ratFloor_eq]
  split_ifs with h1 h2 h3
  · have ha : |((⌊x⌋ : ℤ) : ℚ) - x| = x - ((⌊x⌋ : ℤ) : ℚ) := by
      rw [abs_sub_comm]
      exact abs_of_nonneg (by linarith)
    rw [ha]
    rcases hm with hm2 | hm2
    · exact hmlow hm2
    · have := hmhigh hm2
      linarith
  · have ha : |(((⌊x⌋ + 1 : ℤ)) : ℚ) - x| = ((⌊x⌋ : ℤ) : ℚ) + 1 - x := by
      push_cast
      exact abs_of_nonneg (by linarith)
    rw [ha]
    rcases hm with hm2 | hm2
    · have := hmlow hm2
      linarith
    · exact hmhigh hm2
  · have ha : |((⌊x⌋ : ℤ) : ℚ) - x| = x - ((⌊x⌋ : ℤ) : ℚ) := by
      rw [abs_sub_comm]
      exact abs_of_nonneg (by linarith)
    rw [ha]
    have he : x - ((⌊x⌋ : ℤ) : ℚ) = 1 / 2 := by linarith
    rcases hm with hm2 | hm2
    · exact hmlow hm2
    · have := hmhigh hm2
      linarith
  · have ha : |(((⌊x⌋ + 1 : ℤ)) : ℚ) - x| = ((⌊x⌋ : ℤ) : ℚ) + 1 - x := by
      push_cast
      exact abs_of_nonneg (by linarith)
    rw [ha]
    have he : x - ((⌊x⌋ : ℤ) : ℚ) = 1 / 2 := by linarith
    rcases hm with hm2 | hm2
    · have := hmlow hm2
      linarith
    · exact hmhigh hm2

theorem ratTrunc_int_add_nonneg (n : ℤ) (e : ℚ) (hn : 0 ≤ n) (h0 : 0 ≤ e)
    (h1 : e < 1) : ratTrunc ((n : ℚ) + e) = n := by
  have hx : (0 : ℚ) ≤ (n : ℚ) + e := by
    have : (0 : ℚ) ≤ (n : ℚ) := by exact_mod_cast hn
    linarith
  rw [ratTrunc, if_pos hx, ratFloor_eq, floor_add_small n e h0 h1]

theorem ratTrunc_int_add_neg (n : ℤ) (e : ℚ) (hn : n < 0) (h0 : 0 < e)
    (h1 : e < 1) : ratTrunc ((n : ℚ) + e) = n + 1 := by
  have hn1 : n + 1 ≤ 0 := by omega
  have hc : ((n : ℚ) + 1) ≤ 0 := by exact_mod_cast hn1
  have hx : ¬ (0 : ℚ) ≤ (n : ℚ) + e := by
    push_neg
    linarith
  rw [ratTrunc, if_neg hx, ratCeil_eq, Int.ceil_eq_iff]
  constructor
  · push_cast
    linarith
  · push_cast
    linarith

theorem abs_lt_of_between {a t : ℚ} (h1 : -t < a) (h2 : a < t) : |a| < t :=
  abs_lt.mpr ⟨h1, h2⟩

/-- Unfolding lemma for `_float_to_boolean` on a non-null float. -/
theorem _float_to_boolean_eval (x : ℚ) (force : Bool) (ftol : ℚ) :
    _float_to_boolean (.vFloat x) force ftol =
      (if force = true ∨
          |boolToRat (if |(npRound x : ℚ) - x| < ftol then
            pyBoolInt (npRound x) else pyBool x) - x| < ftol
       then .ok (.vBool (if |(npRound x : ℚ) - x| < ftol then
         pyBoolInt (npRound x) else pyBool x))
       else .error (.valueError "float to bool" (.vFloat x))) := rfl

/-- Unfolding lemma for `float_to_integer` on a non-null float. -/
theorem float_to_integer_eval (x : ℚ) (force round : Bool) (ftol : ℚ) :
    float_to_integer (.vFloat x) force round ftol =
      (let result :=
        if round = true ∨ |(npRound x : ℚ) - x| < ftol then npRound x
        else ratTrunc x
       if force = true ∨ |(result : ℚ) - x| < ftol then .ok (.vInt result)
       else .error (.valueError "float to int" (.vFloat x))) := rfl

/-! ### Claim theorems -/

/-- C1: for every target kind and every option set, each entry point
(`to_integer`, `to_float`, `to_complex`, `to_boolean`, `to_string`,
`to_datetime`, `to_timedelta`) applied to a missing/null input returns the
target kind's own missing sentinel (`np.nan` for the numeric kinds,
`pd.NA` for boolean/string, `pd.NaT` for datetime/timedelta) and never
raises. -/
theorem null_propagation_all_entries (m : PyVal) (h : pdIsNull m = true) :
    (∀ (round force : Bool) (ftol : ℚ) (format : Option String),
      to_integer m round force ftol format = .ok .vNaN)
    ∧ (∀ (force : Bool) (ftol : ℚ) (format : Option String),
      to_float m force ftol format = .ok .vNaN)
    ∧ (∀ format : Option String, to_complex m format = .ok .vNaN)
    ∧ (∀ (force : Bool) (ftol : ℚ) (format : Option String),
      to_boolean m force ftol format = .ok .vNA)
    ∧ (∀ format : Option String, to_string m format = .ok .vNA)
    ∧ (∀ (force : Bool) (ftol : ℚ) (format : Option String),
      to_datetime m force ftol format = .ok .vNaT)
    ∧ (∀ (force : Bool) (ftol : ℚ), to_timedelta m force ftol = .ok .vNaT) := by
  refine ⟨?_, ?_, ?_, ?_, ?_, ?_, ?_⟩ <;> intros <;>
    simp [to_integer, to_float, to_complex, to_boolean, to_string,
      to_datetime, to_timedelta, h]

/-- Witness for C1: the concrete sentinel `np.nan` through `to_boolean`. -/
theorem null_propagation_all_entries_witness :
    pdIsNull .vNaN = true ∧
      to_boolean .vNaN false defaultFtol none = .ok .vNA :=
  ⟨rfl, (null_propagation_all_entries .vNaN rfl).2.2.2.1 false defaultFtol none⟩

/-- C2: `to_boolean("1.0000001", ftol=1e-6)` infers the float `1.0000001`,
narrows it to boolean within tolerance and returns `True`;
`to_boolean("1.1", ftol=1e-6)` infers the float `1.1` and fails with the
precision-loss error, surfaced as a `ValueError`, when `force` is not
set. -/
theorem to_boolean_string_tolerance_scenario :
    parse_string "1.0000001" = .vFloat (10000001 / 10000000)
    ∧ _float_to_boolean (.vFloat (10000001 / 10000000)) false defaultFtol =
        .ok (.vBool true)
    ∧ to_boolean (.vStr "1.0000001") false defaultFtol none =
        .ok (.vBool true)
    ∧ parse_string "1.1" = .vFloat (11 / 10)
    ∧ _float_to_boolean (.vFloat (11 / 10)) false defaultFtol =
        .error (.valueError "float to bool" (.vFloat (11 / 10)))
    ∧ to_boolean (.vStr "1.1") false defaultFtol none =
        .error (.valueError "element to bool" (.vStr "1.1")) := by
  have hp1 : parse_string "1.0000001" = .vFloat (10000001 / 10000000) := rfl
  have hp2 : parse_string "1.1" = .vFloat (11 / 10) := rfl
  have hnp1 : npRound (10000001 / 10000000 : ℚ) = 1 := by
    rw [show (10000001 / 10000000 : ℚ) = ((1 : ℤ) : ℚ) + 1 / 10000000 by
      push_cast; norm_num]
    exact npRound_int_add 1 (1 / 10000000) (by norm_num) (by norm_num)
  have hnp2 : npRound (11 / 10 : ℚ) = 1 := by
    rw [show (11 / 10 : ℚ) = ((1 : ℤ) : ℚ) + 1 / 10 by push_cast; norm_num]
    exact npRound_int_add 1 (1 / 10) (by norm_num) (by norm_num)
  have hc1 : |((1 : ℤ) : ℚ) - 10000001 / 10000000| < defaultFtol :=
    abs_lt_of_between (by rw [defaultFtol]; push_cast; norm_num)
      (by rw [defaultFtol]; push_cast; norm_num)
  have hc1b : |boolToRat true - (10000001 / 10000000 : ℚ)| < defaultFtol := by
    rw [show boolToRat true = (1 : ℚ) from rfl]
    exact abs_lt_of_between (by rw [defaultFtol]; norm_num)
      (by rw [defaultFtol]; norm_num)
  have hc2 : ¬ |((1 : ℤ) : ℚ) - 11 / 10| < defaultFtol := by
    rw [abs_sub_comm, show (11 / 10 : ℚ) - ((1 : ℤ) : ℚ) = 1 / 10 by
      push_cast; norm_num, abs_of_nonneg (by norm_num : (0 : ℚ) ≤ 1 / 10)]
    rw [defaultFtol]
    norm_num
  have hpb2 : pyBool (11 / 10 : ℚ) = true := by
    rw [pyBool]
    exact decide_eq_true (by norm_num)
  have hc2b : ¬ (false = true ∨
      |boolToRat true - (11 / 10 : ℚ)| < defaultFtol) := by
    push_neg
    refine ⟨by simp, ?_⟩
    rw [show boolToRat true = (1 : ℚ) from rfl, abs_sub_comm,
      show (11 / 10 : ℚ) - 1 = 1 / 10 by norm_num,
      abs_of_nonneg (by norm_num : (0 : ℚ) ≤ 1 / 10)]
    rw [defaultFtol]
    norm_num
  have hb1 : _float_to_boolean (.vFloat (10000001 / 10000000)) false
      defaultFtol = .ok (.vBool true) := by
    rw [_float_to_boolean_eval, hnp1, if_pos hc1,
      show pyBoolInt 1 = true from rfl, if_pos (Or.inr hc1b)]
  have hb2 : _float_to_boolean (.vFloat (11 / 10)) false defaultFtol =
      .error (.valueError "float to bool" (.vFloat (11 / 10))) := by
    rw [_float_to_boolean_eval, hnp2, if_neg hc2, hpb2, if_neg hc2b]
  refine ⟨hp1, hb1, ?_, hp2, hb2, ?_⟩
  · simp only [to_boolean, to_boolean_map, _string_to_boolean,
      _string_to_boolean_map, pdIsNull, parse_dtype, applyCell,
      normalizeErr, hp1, hb1, Bool.false_eq_true, if_false]
  · simp only [to_boolean, to_boolean_map, _string_to_boolean,
      _string_to_boolean_map, pdIsNull, parse_dtype, applyCell,
      normalizeErr, hp2, hb2, Bool.false_eq_true, if_false]

/-- C3: for a non-null float `x`, when `round` is true the candidate is
the nearest integer (`npRound x`, which minimizes the distance to `x` over
all integers); when `round` is false the candidate is the nearest integer
only if its distance to `x` is strictly below `ftol`, else the truncation;
the candidate is returned iff `force` is set or it lies strictly within
`ftol` of `x`, and otherwise the call fails.  Consequently a float with
fractional part `ftol/2` converts without `force`, while one with
fractional part `2*ftol` fails unless `force` is set. -/
theorem float_to_integer_loss_policy (x : ℚ) (force : Bool) (ftol : ℚ) :
    (float_to_integer (.vFloat x) force true ftol =
      (if force = true ∨ |(npRound x : ℚ) - x| < ftol
       then .ok (.vInt (npRound x))
       else .error (.valueError "float to int" (.vFloat x))))
    ∧ (∀ m : ℤ, |(npRound x : ℚ) - x| ≤ |(m : ℚ) - x|)
    ∧ (float_to_integer (.vFloat x) force false ftol =
      (let cand :=
        if |(npRound x : ℚ) - x| < ftol then npRound x else ratTrunc x
       if force = true ∨ |(cand : ℚ) - x| < ftol
       then .ok (.vInt cand)
       else .error (.valueError "float to int" (.vFloat x))))
    ∧ (∀ n : ℤ, 0 < ftol → 2 * ftol < 1 / 2 →
      (∀ rd fc : Bool,
        float_to_integer (.vFloat ((n : ℚ) + ftol / 2)) fc rd ftol =
          .ok (.vInt n))
      ∧ (∀ rd : Bool,
        float_to_integer (.vFloat ((n : ℚ) + 2 * ftol)) false rd ftol =
          .error (.valueError "float to int"
            (.vFloat ((n : ℚ) + 2 * ftol))))
      ∧ (∀ rd : Bool, ∃ c : ℤ,
        float_to_integer (.vFloat ((n : ℚ) + 2 * ftol)) true rd ftol =
          .ok (.vInt c))) := by
  refine ⟨?_, npRound_nearest x, ?_, ?_⟩
  · rw [float_to_integer_eval]
    simp
  · rw [float_to_integer_eval]
    simp
  · intro n h0 h1
    have hr1 : npRound ((n : ℚ) + ftol / 2) = n :=
      npRound_int_add n (ftol / 2) (by linarith) (by linarith)
    have hr2 : npRound ((n : ℚ) + 2 * ftol) = n :=
      npRound_int_add n (2 * ftol) (by linarith) (by linarith)
    have habs1 : |((n : ℤ) : ℚ) - ((n : ℚ) + ftol / 2)| = ftol / 2 := by
      rw [abs_sub_comm, show ((n : ℚ) + ftol / 2) - ((n : ℤ) : ℚ) = ftol / 2
        by push_cast; ring]
      exact abs_of_nonneg (by linarith)
    have habs2 : |((n : ℤ) : ℚ) - ((n : ℚ) + 2 * ftol)| = 2 * ftol := by
      rw [abs_sub_comm, show ((n : ℚ) + 2 * ftol) - ((n : ℤ) : ℚ) = 2 * ftol
        by push_cast; ring]
      exact abs_of_nonneg (by linarith)
    refine ⟨?_, ?_, ?_⟩
    · intro rd fc
      rw [float_to_integer_eval]
      have hcond : rd = true ∨ |(npRound ((n : ℚ) + ftol / 2) : ℚ) -
          ((n : ℚ) + ftol / 2)| < ftol := by
        right
        rw [hr1, habs1]
        linarith
      rw [if_pos hcond, hr1]
      have hgate : fc = true ∨ |((n : ℤ) : ℚ) - ((n : ℚ) + ftol / 2)| <
          ftol := by
        right
        rw [habs1]
        linarith
      rw [if_pos hgate]
    · intro rd
      rw [float_to_integer_eval]
      have hnear : ¬ |(npRound ((n : ℚ) + 2 * ftol) : ℚ) -
          ((n : ℚ) + 2 * ftol)| < ftol := by
        rw [hr2, habs2]
        linarith
      cases rd with
      | true =>
        rw [if_pos (Or.inl rfl), hr2]
        have hgate : ¬ (false = true ∨
            |((n : ℤ) : ℚ) - ((n : ℚ) + 2 * ftol)| < ftol) := by
          push_neg
          refine ⟨by simp, ?_⟩
          rw [habs2]
          linarith
        rw [if_neg hgate]
      | false =>
        have hcond : ¬ (false = true ∨ |(npRound ((n : ℚ) + 2 * ftol) : ℚ) -
            ((n : ℚ) + 2 * ftol)| < ftol) := by
          push_neg
          exact ⟨by simp, le_of_not_lt hnear⟩
        rw [if_neg hcond]
        rcases le_or_lt 0 n with hn | hn
        · rw [ratTrunc_int_add_nonneg n (2 * ftol) hn (by linarith)
            (by linarith)]
          have hgate : ¬ (false = true ∨
              |((n : ℤ) : ℚ) - ((n : ℚ) + 2 * ftol)| < ftol) := by
            push_neg
            refine ⟨by simp, ?_⟩
            rw [habs2]
            linarith
          rw [if_neg hgate]
        · rw [ratTrunc_int_add_neg n (2 * ftol) hn (by linarith)
            (by linarith)]
          have habs3 : |(((n + 1 : ℤ)) : ℚ) - ((n : ℚ) + 2 * ftol)| =
              1 - 2 * ftol := by
            rw [show (((n + 1 : ℤ)) : ℚ) - ((n : ℚ) + 2 * ftol) =
              1 - 2 * ftol by push_cast; ring]
            exact abs_of_nonneg (by linarith)
          have hgate : ¬ (false = true ∨
              |(((n + 1 : ℤ)) : ℚ) - ((n : ℚ) + 2 * ftol)| < ftol) := by
            push_neg
            refine ⟨by simp, ?_⟩
            rw [habs3]
            linarith
          rw [if_neg hgate]
    · intro rd
      refine ⟨if rd = true ∨ |(npRound ((n : ℚ) + 2 * ftol) : ℚ) -
        ((n : ℚ) + 2 * ftol)| < ftol then npRound ((n : ℚ) + 2 * ftol)
        else ratTrunc ((n : ℚ) + 2 * ftol), ?_⟩
      rw [float_to_integer_eval]
      exact if_pos (Or.inl rfl)

/-- Witness for C3: the tolerance boundary at `n = 3` with the default
tolerance `1e-6`. -/
theorem float_to_integer_loss_policy_witness :
    (0 : ℚ) < defaultFtol ∧ 2 * defaultFtol < 1 / 2 ∧
      float_to_integer (.vFloat (((3 : ℤ) : ℚ) + defaultFtol / 2)) false
        false defaultFtol = .ok (.vInt 3) :=
  ⟨by norm_num [defaultFtol], by norm_num [defaultFtol],
    ((float_to_integer_loss_policy 0 false defaultFtol).2.2.2 3
      (by norm_num [defaultFtol]) (by norm_num [defaultFtol])).1 false false⟩

/-- Unfolding lemma for `integer_to_boolean` on a non-null integer. -/
theorem integer_to_boolean_eval (n : ℤ) (force : Bool) :
    integer_to_boolean (.vInt n) force =
      (if boolToInt (pyBoolInt n) = n ∨ force = true
       then .ok (.vBool (pyBoolInt n))
       else .error (.valueError "int to bool" (.vInt n))) := rfl

/-- C4 (evaluating the code at the failing inputs): on the string-to-
temporal paths a raw, non-normalized error escapes the entry points:
`to_timedelta` on any string raises a `TypeError` (its `str` cell passes
`ftol=` to `_string_to_timedelta`, which has no such parameter);
`_string_to_timedelta` itself, reached with a string that parses as a
timedelta, raises a raw `AttributeError` (line 445 calls
`.total_seconds()` on the original string); and `to_datetime` on any
string raises a `TypeError` (line 408 evaluates
`return_type(return_type)` while building the map).  None of these are
the normalized user-facing `ValueError` the claim requires. -/
theorem string_temporal_raw_error_escape :
    to_timedelta (.vStr "1 day, 0:00:10") false defaultFtol =
      .error .typeError
    ∧ _string_to_timedelta (.vStr "1 day, 0:00:10") false none =
      .error .attributeError
    ∧ to_datetime (.vStr "abc") false defaultFtol none =
      .error .typeError := by
  refine ⟨rfl, ?_, rfl⟩
  obtain ⟨q, hq⟩ : ∃ q, parse_string "1 day, 0:00:10" = .vTimedelta q :=
    ⟨_, rfl⟩
  simp only [_string_to_timedelta, hq, parse_dtype, applyCell,
    _string_to_timedelta_map, normalizeErr]

/-- C5: the string inference cascade tries integer, float, complex,
duration, datetime, boolean literal in that fixed order and otherwise
keeps the text: `"10"` infers as the integer 10 (integer parses win over
everything later), `"true"` (and case-insensitively `" TRUE "`, `"F"`,
with surrounding whitespace stripped) as a boolean with accepted tokens
exactly `t`/`true` and `f`/`false`, `"1 day, 0:00:10"` as a duration of
86410 seconds, and `"abc"` stays the text `"abc"`. -/
theorem parse_string_cascade :
    parse_string "10" = .vInt 10
    ∧ parse_string "true" = .vBool true
    ∧ parse_string " TRUE " = .vBool true
    ∧ parse_string "F" = .vBool false
    ∧ parse_string "abc" = .vStr "abc"
    ∧ parse_string "1 day, 0:00:10" = .vTimedelta 86410
    ∧ (∀ (s : String) (n : ℤ), pyParseInt s = some n →
        parse_string s = .vInt n)
    ∧ (∀ (s : String) (q : ℚ), pyParseInt s = none →
        pyParseFloat s = some q → parse_string s = .vFloat q)
    ∧ (∀ s : String, pyParseInt s = none → pyParseFloat s = none →
        pyParseComplex s = none → pdParseTimedelta s = none →
        pdParseDatetime s = none →
        ((parse_string s = .vBool true ↔
          ((trimChars s.data).map Char.toLower = "t".data ∨
            (trimChars s.data).map Char.toLower = "true".data))
        ∧ (parse_string s = .vBool false ↔
          (¬ ((trimChars s.data).map Char.toLower = "t".data ∨
              (trimChars s.data).map Char.toLower = "true".data) ∧
            ((trimChars s.data).map Char.toLower = "f".data ∨
              (trimChars s.data).map Char.toLower = "false".data)))
        ∧ (¬ ((trimChars s.data).map Char.toLower = "t".data ∨
              (trimChars s.data).map Char.toLower = "true".data) →
           ¬ ((trimChars s.data).map Char.toLower = "f".data ∨
              (trimChars s.data).map Char.toLower = "false".data) →
           parse_string s = .vStr s))) := by
  have htd : parse_string "1 day, 0:00:10" =
      .vTimedelta (86400 * ((1 : ℕ) : ℚ) + (3600 * ((0 : ℕ) : ℚ) +
        60 * ((0 : ℕ) : ℚ) + ((10 : ℕ) : ℚ))) := rfl
  refine ⟨rfl, rfl, rfl, rfl, rfl, ?_, ?_, ?_, ?_⟩
  · rw [htd]
    norm_num
  · intro s n h
    simp only [parse_string, h]
  · intro s q h1 h2
    simp only [parse_string, h1, h2]
  · intro s h1 h2 h3 h4 h5
    simp only [parse_string, h1, h2, h3, h4, h5]
    split_ifs with ht hf
    · simp [ht]
    · simp [ht, hf]
    · simp [ht, hf]

/-- Witness for C5: the cascade's integer priority at the input `"42"`. -/
theorem parse_string_cascade_witness :
    pyParseInt "42" = some 42 ∧ parse_string "42" = .vInt 42 :=
  ⟨rfl, parse_string_cascade.2.2.2.2.2.2.1 "42" 42 rfl⟩

/-- C6: every narrowing rule (float/complex/datetime/timedelta to integer
or boolean, and complex to float/datetime/timedelta) succeeds for every
non-null input when `force` is set, returning the rounded/truncated
candidate consistent with the `round` flag instead of raising. -/
theorem force_bypass_narrowing (x re im ts secs ftol : ℚ) (rnd : Bool) :
    float_to_integer (.vFloat x) true rnd ftol =
      .ok (.vInt (if rnd = true ∨ |(npRound x : ℚ) - x| < ftol
        then npRound x else ratTrunc x))
    ∧ _float_to_boolean (.vFloat x) true ftol =
      .ok (.vBool (if |(npRound x : ℚ) - x| < ftol
        then pyBoolInt (npRound x) else pyBool x))
    ∧ _complex_to_integer (.vComplex re im) rnd true ftol =
      .ok (.vInt (if rnd = true ∨ cAbsLt ((npRound re : ℚ) - re) im ftol =
          true then npRound re else ratTrunc re))
    ∧ _complex_to_float (.vComplex re im) true ftol = .ok (.vFloat re)
    ∧ _complex_to_boolean (.vComplex re im) true ftol =
      .ok (.vBool (if cAbsLt ((npRound re : ℚ) - re) im ftol = true
        then pyBoolInt (npRound re) else pyBool re))
    ∧ _complex_to_datetime (.vComplex re im) true ftol = .ok (.vDatetime re)
    ∧ _complex_to_timedelta (.vComplex re im) true ftol =
      .ok (.vTimedelta re)
    ∧ _datetime_to_integer (.vDatetime ts) rnd true ftol =
      .ok (.vInt (if rnd = true ∨
          |(npRound (to_utc ts) : ℚ) - to_utc ts| < ftol
        then npRound (to_utc ts) else ratTrunc (to_utc ts)))
    ∧ _datetime_to_boolean (.vDatetime ts) true ftol =
      .ok (.vBool (pyBool (to_utc ts)))
    ∧ _timedelta_to_integer (.vTimedelta secs) rnd true ftol =
      .ok (.vInt (if rnd = true ∨ |(npRound secs : ℚ) - secs| < ftol
        then npRound secs else ratTrunc secs))
    ∧ _timedelta_to_boolean (.vTimedelta secs) true ftol =
      .ok (.vBool (pyBool secs)) := by
  refine ⟨?_, ?_, ?_, ?_, ?_, ?_, ?_, ?_, ?_, ?_, ?_⟩ <;>
    simp [float_to_integer, _float_to_boolean, _complex_to_integer,
      _complex_to_float, _complex_to_boolean, _complex_to_datetime,
      _complex_to_timedelta, _datetime_to_integer, _datetime_to_boolean,
      _timedelta_to_integer, _timedelta_to_boolean]

/-- C7: for an integer `n` in representable range, the composition
`to_float(to_integer(to_float(n)))` under default options returns the
float `n` again. -/
theorem int_float_roundtrip (n : ℤ) (h : n.natAbs ≤ 2 ^ 53) :
    to_float (.vInt n) false defaultFtol none = .ok (.vFloat ((n : ℤ) : ℚ))
    ∧ to_integer (.vFloat ((n : ℤ) : ℚ)) false false defaultFtol none =
      .ok (.vInt n)
    ∧ (((to_float (.vInt n) false defaultFtol none).andThen
          (fun v => to_integer v false false defaultFtol none)).andThen
        (fun v => to_float v false defaultFtol none)) =
      .ok (.vFloat ((n : ℤ) : ℚ)) := by
  have h1 : to_float (.vInt n) false defaultFtol none =
      .ok (.vFloat ((n : ℤ) : ℚ)) := rfl
  have hz : |((n : ℤ) : ℚ) - ((n : ℤ) : ℚ)| < defaultFtol := by
    rw [sub_self, abs_zero, defaultFtol]
    norm_num
  have hfi : float_to_integer (.vFloat ((n : ℤ) : ℚ)) false false
      defaultFtol = .ok (.vInt n) := by
    simp only [float_to_integer_eval]
    rw [npRound_intCast, if_pos (Or.inr hz), if_pos (Or.inr hz)]
  have h2 : to_integer (.vFloat ((n : ℤ) : ℚ)) false false defaultFtol
      none = .ok (.vInt n) := by
    simp only [to_integer, to_integer_map, pdIsNull, parse_dtype,
      applyCell, normalizeErr, hfi, Bool.false_eq_true, if_false]
  refine ⟨h1, h2, ?_⟩
  rw [h1]
  simp only [Res.andThen]
  rw [h2]
  exact h1

/-- Witness for C7: the round-trip at `n = 42`. -/
theorem int_float_roundtrip_witness :
    (42 : ℤ).natAbs ≤ 2 ^ 53 ∧
      (((to_float (.vInt 42) false defaultFtol none).andThen
          (fun v => to_integer v false false defaultFtol none)).andThen
        (fun v => to_float v false defaultFtol none)) =
      .ok (.vFloat ((42 : ℤ) : ℚ)) :=
  ⟨by norm_num, (int_float_roundtrip 42 (by norm_num)).2.2⟩

/-- C8: DateTime and Duration interconvert through the epoch-seconds
bridge: a non-null datetime becomes a timedelta whose total seconds are
the datetime's canonical-UTC seconds-since-epoch, and a non-null
timedelta becomes the datetime at epoch plus its total seconds, both for
the bare rules and through the entry points. -/
theorem datetime_timedelta_epoch_bridge (ts secs ftol : ℚ) (force : Bool)
    (format : Option String) :
    _datetime_to_timedelta (.vDatetime ts) = .ok (.vTimedelta (to_utc ts))
    ∧ _timedelta_to_datetime (.vTimedelta secs) = .ok (.vDatetime secs)
    ∧ to_timedelta (.vDatetime ts) force ftol =
      .ok (.vTimedelta (to_utc ts))
    ∧ to_datetime (.vTimedelta secs) force ftol format =
      .ok (.vDatetime secs) := by
  refine ⟨rfl, rfl, rfl, rfl⟩

/-- C9: the integer-to-boolean rule returns `bool(n)` exactly when `n` is
0 or 1 and raises `ValueError` for every other integer when `force` is
unset; with `force` it returns `bool(n)` for every integer.  No `ftol`
widens this: the rule takes no tolerance parameter, and the tolerance
passed to the string-to-boolean dispatcher has no effect on
integer-parsed text. -/
theorem integer_to_boolean_exact (n : ℤ) :
    (n = 0 ∨ n = 1 → integer_to_boolean (.vInt n) false =
      .ok (.vBool (pyBoolInt n)))
    ∧ (n ≠ 0 → n ≠ 1 → integer_to_boolean (.vInt n) false =
      .error (.valueError "int to bool" (.vInt n)))
    ∧ integer_to_boolean (.vInt n) true = .ok (.vBool (pyBoolInt n))
    ∧ (∀ (s : String) (force : Bool) (f1 f2 : ℚ) (format : Option String),
        (∃ k : ℤ, parse_string s = .vInt k) →
        _string_to_boolean (.vStr s) force f1 format =
          _string_to_boolean (.vStr s) force f2 format) := by
  refine ⟨?_, ?_, ?_, ?_⟩
  · rintro (h | h) <;> subst h <;> rfl
  · intro h0 h1
    have hb : pyBoolInt n = true := by
      rw [pyBoolInt]
      exact decide_eq_true h0
    rw [integer_to_boolean_eval, hb]
    have hcond : ¬ (boolToInt true = n ∨ false = true) := by
      push_neg
      refine ⟨fun hh => ?_, by simp⟩
      rw [boolToInt] at hh
      simp only [if_true] at hh
      exact h1 hh.symm
    rw [if_neg hcond]
  · rw [integer_to_boolean_eval, if_pos (Or.inr rfl)]
  · rintro s force f1 f2 format ⟨k, hk⟩
    simp only [_string_to_boolean, hk, parse_dtype, applyCell,
      _string_to_boolean_map]

/-- Witness for C9: the rule at 1 (accept), 2 (reject), -3 with force
(accept), and the tolerance-independence at the integer-parsed string
`"7"`. -/
theorem integer_to_boolean_exact_witness :
    integer_to_boolean (.vInt 1) false = .ok (.vBool (pyBoolInt 1))
    ∧ integer_to_boolean (.vInt 2) false =
      .error (.valueError "int to bool" (.vInt 2))
    ∧ integer_to_boolean (.vInt (-3)) true = .ok (.vBool (pyBoolInt (-3)))
    ∧ _string_to_boolean (.vStr "7") false defaultFtol none =
      _string_to_boolean (.vStr "7") false (1 / 2) none :=
  ⟨(integer_to_boolean_exact 1).1 (Or.inr rfl),
    (integer_to_boolean_exact 2).2.1 (by decide) (by decide),
    (integer_to_boolean_exact (-3)).2.2.1,
    (integer_to_boolean_exact 7).2.2.2 "7" false defaultFtol (1 / 2) none
      ⟨7, rfl⟩⟩

/-- C10: the conversion maps of `to_datetime` and `to_timedelta` have no
cell for the catch-all object kind, so a non-null object-classified input
raises the conversion error (the internal `KeyError`, normalized to the
user-facing `ValueError`), while the other five entry points fall back to
applying the target's native constructor to the object's value. -/
theorem object_kind_dispatch (q ftol : ℚ) (round force : Bool)
    (format : Option String) :
    to_datetime_map force ftol format .obj = none
    ∧ to_timedelta_map force ftol .obj = none
    ∧ to_datetime (.vObj q) force ftol format =
      .error (.valueError "element to datetime" (.vObj q))
    ∧ to_timedelta (.vObj q) force ftol =
      .error (.valueError "element to timedelta" (.vObj q))
    ∧ to_integer (.vObj q) round force ftol format =
      .ok (.vInt (ratTrunc q))
    ∧ to_float (.vObj q) force ftol format = .ok (.vFloat q)
    ∧ to_complex (.vObj q) format = .ok (.vComplex q 0)
    ∧ to_boolean (.vObj q) force ftol format = .ok (.vBool (pyBool q))
    ∧ to_string (.vObj q) format = .ok (.vStr (ratRepr q)) :=
  ⟨rfl, rfl, rfl, rfl, rfl, rfl, rfl, rfl, rfl⟩

end Pdtypes
